import Mathlib

/-!
Verification of the Drupal JSON API test-support library (package jsonapi and
its helpers) against its natural-language specification.

The Go source is shallowly embedded: JSON documents are modelled as parsed
values (the output of encoding/json on a byte body), the testify testing.T is
modelled as an explicit test state threaded through each call, and the HTTP
layer is modelled by passing the response a GET would deliver as an argument.
Each definition carries a comment naming the Go function it embeds.
-/

namespace IdcGolang

/-- A parsed JSON document, the result of decoding a raw response body with
encoding/json.  Objects are association lists with distinct keys (a decoded
Go map); numbers are modelled on the integer grid, which is exact for every
value the claims mention. -/
inductive Json where
  | null
  | bool (b : Bool)
  | num (n : Int)
  | str (s : String)
  | arr (elems : List Json)
  | obj (fields : List (String × Json))

/-- Exact lookup of a key in a decoded object, as a Go map access such as
fullRes["data"] performs. -/
def lookupExact (key : String) : List (String × Json) → Option Json
  | [] => none
  | (k, v) :: rest => if k == key then some v else lookupExact key rest

/-- Unicode White_Space test, the predicate behind strings.TrimSpace in the Go
standard library (unicode.IsSpace).  The White_Space property holds for exactly
the code points enumerated here. -/
def goIsSpace (c : Char) : Bool :=
  let n := c.toNat
  (9 ≤ n && n ≤ 13) || n == 32 || n == 133 || n == 160 || n == 0x1680 ||
    (0x2000 ≤ n && n ≤ 0x200A) || n == 0x2028 || n == 0x2029 || n == 0x202F ||
    n == 0x205F || n == 0x3000

/-- Embeds strings.TrimSpace: remove leading and trailing White_Space. -/
def goTrimSpace (s : String) : String :=
  String.mk (List.rdropWhile goIsSpace (List.dropWhile goIsSpace s.data))

/-- Whether "--" occurs as a substring (strings.Contains(s, "--")). -/
def containsDashDash : List Char → Bool
  | c₁ :: c₂ :: rest => (c₁ = '-' && c₂ = '-') || containsDashDash (c₂ :: rest)
  | _ => false

/-- Embeds strings.Split(s, "--"): the chunks between the non-overlapping
left-to-right occurrences of the separator, scanning from the left.  The
result is always nonempty; the nil fallback branch is unreachable. -/
def goSplitDashDash : List Char → List (List Char)
  | [] => [[]]
  | [c] => [[c]]
  | c₁ :: c₂ :: rest =>
    if c₁ = '-' && c₂ = '-' then [] :: goSplitDashDash rest
    else
      match goSplitDashDash (c₂ :: rest) with
      | [] => [[c₁]]
      | chunk :: chunks => (c₁ :: chunk) :: chunks

/-- A Drupal type label such as "taxonomy_term--person" (type DrupalType string). -/
abbrev DrupalType := String

/-- Embeds DrupalType.Entity: strings.Split(string(t), "--")[0].  The indexing
is modelled as an optional lookup; a missing index is the Go runtime panic
"index out of range". -/
def DrupalType.Entity (t : DrupalType) : Option String :=
  (List.get? (goSplitDashDash t.data) 0).map String.mk

/-- Embeds DrupalType.Bundle: strings.Split(string(t), "--")[1], again with the
out-of-range panic modelled as none. -/
def DrupalType.Bundle (t : DrupalType) : Option String :=
  (List.get? (goSplitDashDash t.data) 1).map String.mk

example : DrupalType.Entity "taxonomy_term--person" = some "taxonomy_term" := by decide
example : DrupalType.Bundle "taxonomy_term--person" = some "person" := by decide
example : DrupalType.Bundle "user" = none := by decide

/-- The observable state of the testify testing.T the library threads through
every call.  The assert package records a failure and lets execution continue;
only the require package (t.FailNow), never used by this library, would set
the aborted flag and stop the remaining steps of the calling test. -/
structure TestState where
  failures : Nat
  aborted : Bool

/-- Records one assertion failure, execution continuing (assert.Fail). -/
def TestState.fail (st : TestState) : TestState :=
  TestState.mk (st.failures + 1) st.aborted

/-- Embeds assert.Nil on an error value: a present error records a failure. -/
def assertNil (e : Option String) (st : TestState) : TestState :=
  match e with
  | none => st
  | some _ => st.fail

/-- Embeds assert.Equal on two naturals (the 200-status and length checks). -/
def assertEqualNat (expected actual : Nat) (st : TestState) : TestState :=
  if expected == actual then st else st.fail

/-- Embeds assert.NotEmpty on a string: the empty string records a failure. -/
def assertNotEmpty (s : String) (st : TestState) : TestState :=
  if s == "" then st.fail else st

/-- Embeds type JsonApiResponse: the normalized data element(s) of a JSON API
response, each element a decoded field map. -/
structure JsonApiResponse where
  Data : List (List (String × Json))

/-- The three ways JsonApiResponse.UnmarshalJSON can come out in Go: a decoded
value, a returned error, or a runtime panic from the unchecked type assertion
v.(map[string]interface ...) on an array element that is not an object. -/
inductive UnmarshalOutcome where
  | ok (r : JsonApiResponse)
  | err (msg : String)
  | panicked

/-- Checks that every element of a data array is a JSON object, collecting the
field maps in order; the first non-object element makes the whole check fail
(in Go, the type assertion panics there). -/
def allObjects : List Json → Option (List (List (String × Json)))
  | [] => some []
  | Json.obj m :: rest => (allObjects rest).map (fun ms => m :: ms)
  | _ :: _ => none

/-- Embeds JsonApiResponse.UnmarshalJSON, operating on the parsed body: decode
the body into a field map, require a data key, then normalize the data value,
which must be an array of objects or a single object. -/
def JsonApiResponse.UnmarshalJSON (b : Json) : UnmarshalOutcome :=
  match b with
  | Json.obj fullRes =>
    match lookupExact "data" fullRes with
    | none => UnmarshalOutcome.err "missing data key when unmarshaling JSONAPI response"
    | some (Json.arr elems) =>
      match allObjects elems with
      | some maps => UnmarshalOutcome.ok (JsonApiResponse.mk maps)
      | none => UnmarshalOutcome.panicked
    | some (Json.obj m) => UnmarshalOutcome.ok (JsonApiResponse.mk [m])
    | some _ => UnmarshalOutcome.err "unable to determine type of JSONAPI key data"
  | _ => UnmarshalOutcome.err "cannot unmarshal body into a field map"

/-- Embeds json.Marshal of a JsonApiResponse value: the struct has the single
exported, untagged field Data, so it serializes as an object with the one key
Data holding the array of field maps. -/
def JsonApiResponse.marshalJSON (jar : JsonApiResponse) : Json :=
  Json.obj [("Data", Json.arr (jar.Data.map Json.obj))]

mutual

/-- The shape of a caller-supplied typed target structure for json.Unmarshal:
strings, integers, booleans, slices, and structs. -/
inductive GoTy where
  | str
  | int
  | bool
  | list (elem : GoTy)
  | structTy (fields : GoFields)

/-- The fields of a struct target, each with its effective JSON key (the json
tag when present, else the field name). -/
inductive GoFields where
  | nil
  | cons (key : String) (ty : GoTy) (rest : GoFields)

end

mutual

/-- A Go value of a target shape, as json.Unmarshal leaves it. -/
inductive GoVal where
  | str (s : String)
  | int (n : Int)
  | bool (b : Bool)
  | list (elems : List GoVal)
  | structVal (fields : List (String × GoVal))

end

mutual

/-- The zero value of a target shape (what an untouched target holds). -/
def GoTy.zero : GoTy → GoVal
  | GoTy.str => GoVal.str ""
  | GoTy.int => GoVal.int 0
  | GoTy.bool => GoVal.bool false
  | GoTy.list _ => GoVal.list []
  | GoTy.structTy fs => GoVal.structVal fs.zero

/-- The zero values of the fields of a struct shape. -/
def GoFields.zero : GoFields → List (String × GoVal)
  | GoFields.nil => []
  | GoFields.cons k t rest => (k, t.zero) :: rest.zero

end

/-- Lower-cases one ASCII letter, leaving every other character alone. -/
def charFold (c : Char) : Char :=
  if 'A' ≤ c && c ≤ 'Z' then Char.ofNat (c.toNat + 32) else c

/-- ASCII case folding for struct field matching; the keys this library
handles are ASCII, where the folding agrees with the Unicode one Go uses. -/
def eqFold (a b : String) : Bool := a.data.map charFold == b.data.map charFold

/-- Case-insensitive fallback lookup of a struct field key among object keys. -/
def lookupFold (key : String) : List (String × Json) → Option Json
  | [] => none
  | (k, v) :: rest => if eqFold k key then some v else lookupFold key rest

/-- How json.Unmarshal matches an incoming object to a struct field: an exact
key match first, otherwise a case-insensitive one.  Decoded objects have
distinct keys, so the per-field lookup order is immaterial. -/
def lookupField (key : String) (kvs : List (String × Json)) : Option Json :=
  match lookupExact key kvs with
  | some v => some v
  | none => lookupFold key kvs

mutual

/-- Embeds json.Unmarshal of a parsed JSON value into a target of the given
shape.  Returns the value the target is left holding and whether a decode
error was produced along the way.  Following encoding/json: null leaves the
target at its zero value without error; a shape mismatch leaves the zero
value and flags an error; object keys with no matching field are ignored;
fields with no matching key keep their zero value. -/
def unmarshalGo : GoTy → Json → GoVal × Bool
  | GoTy.str, Json.str s => (GoVal.str s, false)
  | GoTy.str, Json.null => (GoVal.str "", false)
  | GoTy.str, _ => (GoVal.str "", true)
  | GoTy.int, Json.num n => (GoVal.int n, false)
  | GoTy.int, Json.null => (GoVal.int 0, false)
  | GoTy.int, _ => (GoVal.int 0, true)
  | GoTy.bool, Json.bool b => (GoVal.bool b, false)
  | GoTy.bool, Json.null => (GoVal.bool false, false)
  | GoTy.bool, _ => (GoVal.bool false, true)
  | GoTy.list _, Json.arr [] => (GoVal.list [], false)
  | GoTy.list t, Json.arr (x :: xs) =>
    let hd := unmarshalGo t x
    let tl := unmarshalGo (GoTy.list t) (Json.arr xs)
    (match tl.1 with
     | GoVal.list vs => GoVal.list (hd.1 :: vs)
     | _ => GoVal.list [hd.1],
     hd.2 || tl.2)
  | GoTy.list _, Json.null => (GoVal.list [], false)
  | GoTy.list _, _ => (GoVal.list [], true)
  | GoTy.structTy fs, Json.obj kvs =>
    let r := unmarshalFields fs kvs
    (GoVal.structVal r.1, r.2)
  | GoTy.structTy fs, Json.null => (GoVal.structVal fs.zero, false)
  | GoTy.structTy fs, _ => (GoVal.structVal fs.zero, true)
termination_by t j => (sizeOf t, sizeOf j)

/-- Decodes each struct field from the incoming object in declaration order. -/
def unmarshalFields : GoFields → List (String × Json) → List (String × GoVal) × Bool
  | GoFields.nil, _ => ([], false)
  | GoFields.cons k t rest, kvs =>
    let fv := match lookupField k kvs with
      | some v => unmarshalGo t v
      | none => (t.zero, false)
    let tailr := unmarshalFields rest kvs
    ((k, fv.1) :: tailr.1, fv.2 || tailr.2)
termination_by fs kvs => (sizeOf fs, sizeOf kvs)

end

/-- Embeds JsonApiResponse.To: re-marshal the generic envelope and unmarshal
it into the caller-supplied target.  json.Marshal cannot fail on a decoded
envelope, so the log.Fatalf branch is unreachable; the error result of the
final json.Unmarshal is discarded by the source, so only the value is kept
and the test state is untouched. -/
def JsonApiResponse.To (jar : JsonApiResponse) (target : GoTy) (st : TestState) :
    TestState × GoVal :=
  (st, (unmarshalGo target jar.marshalJSON).1)

/-- Embeds UnmarshalResponse: unmarshal the body into a JsonApiResponse,
assert the unmarshal error is nil, then run the supplied response assertions.
A returned unmarshal error records a failure and execution continues with the
zero-valued response (Data nil); a panic propagates, modelled as none. -/
def UnmarshalResponse (body : Json)
    (responseAssertions : Option (JsonApiResponse → TestState → TestState))
    (st : TestState) : TestState × Option JsonApiResponse :=
  match JsonApiResponse.UnmarshalJSON body with
  | UnmarshalOutcome.ok r =>
    let st := assertNil none st
    let st := match responseAssertions with
      | some f => f r st
      | none => st
    (st, some r)
  | UnmarshalOutcome.err msg =>
    let st := assertNil (some msg) st
    let zero : JsonApiResponse := JsonApiResponse.mk []
    let st := match responseAssertions with
      | some f => f zero st
      | none => st
    (st, some zero)
  | UnmarshalOutcome.panicked => (st, none)

/-- Embeds UnmarshalSingleResponse: UnmarshalResponse with the added assertion
that exactly one data element is present. -/
def UnmarshalSingleResponse (body : Json) (st : TestState) :
    TestState × Option JsonApiResponse :=
  UnmarshalResponse body
    (some (fun value st => assertEqualNat 1 value.Data.length st)) st

/-- The HTTP response a GET of the composed URL delivers, with the body
already parsed (the embedding works on parsed JSON documents). -/
structure HttpResponse where
  StatusCode : Nat
  Body : Json

/-- The observable part of the outgoing request: which basic-auth credentials
the Authorization header carries, if any (http.Request.SetBasicAuth). -/
structure HttpRequest where
  url : String
  basicAuth : Option (String × String)

/-- The request-construction half of GetResourceWithBasicAuth: SetBasicAuth
is called exactly when the supplied username is nonempty after trimming
white space. -/
def mkRequest (url username password : String) : HttpRequest :=
  HttpRequest.mk url
    (if 0 < (goTrimSpace username).length then some (username, password) else none)

/-- Embeds GetResourceWithBasicAuth: build the request, perform the GET
(the transport is modelled as delivering resp without error), assert a 200
status, read the body (an in-memory read cannot fail), and return response
and body.  All three checks are assert, not require: each records a failure
and execution continues. -/
def GetResourceWithBasicAuth (url username password : String)
    (resp : HttpResponse) (st : TestState) :
    TestState × HttpRequest × HttpResponse × Json :=
  let req := mkRequest url username password
  let st := assertNil none st
  let st := assertEqualNat 200 resp.StatusCode st
  let st := assertNil none st
  (st, req, resp, resp.Body)

/-- Embeds GetResource: an unauthenticated GET, delegated with empty
credentials. -/
def GetResource (url : String) (resp : HttpResponse) (st : TestState) :
    TestState × HttpRequest × HttpResponse × Json :=
  GetResourceWithBasicAuth url "" "" resp st

/-- Embeds env.BaseUrlOr (drupal/env): the value of the DRUPAL_BASE_URL
environment variable when set, else the supplied default. -/
def BaseUrlOr (envBaseUrl : Option String) (defaultValue : String) : String :=
  match envBaseUrl with
  | some v => v
  | none => defaultValue

/-- Embeds type JsonApiUrl; the testing.T member is replaced by the explicit
test state the embedding threads. -/
structure JsonApiUrl where
  BaseUrl : String
  DrupalEntity : String
  DrupalBundle : String
  Filter : String
  Value : String
  RawFilter : String
  Username : String
  Password : String

/-- The base/jsonapi/entity/bundle part of the composed URL: the base URL
after the environment override, with one trailing slash stripped (the Go
slice baseUrl[:len(baseUrl)-1] guarded by strings.HasSuffix), joined with
the path segments by strings.Join. -/
def effectivePath (envBaseUrl : Option String) (moo : JsonApiUrl) : String :=
  let baseUrl := BaseUrlOr envBaseUrl moo.BaseUrl
  let baseUrl :=
    if baseUrl.data.getLast? == some '/' then String.mk baseUrl.data.dropLast
    else baseUrl
  String.intercalate "/" [baseUrl, "jsonapi", moo.DrupalEntity, moo.DrupalBundle]

/-- Embeds JsonApiUrl.String: assert the required components nonempty, join
the effective path, and append the raw filter verbatim when present, else
the simple filter pair when present.  The url.Parse round trips of the
source can only fail or rewrite on control characters or URL-escaping, so
they are the identity here, modelled by the two vacuous nil assertions. -/
def JsonApiUrl.urlString (envBaseUrl : Option String) (moo : JsonApiUrl)
    (st : TestState) : TestState × String :=
  let st := assertNotEmpty moo.BaseUrl st
  let st := assertNotEmpty moo.DrupalEntity st
  let st := assertNotEmpty moo.DrupalBundle st
  let joined := effectivePath envBaseUrl moo
  let st := assertNil none st
  let full :=
    if moo.RawFilter ≠ "" then joined ++ "?" ++ moo.RawFilter
    else if moo.Filter ≠ "" then joined ++ "?filter[" ++ moo.Filter ++ "]=" ++ moo.Value
    else joined
  let st := assertNil none st
  (st, full)

/-- What one call of JsonApiUrl.Get or GetSingle leaves behind: the test
state, the request that went out, the response value the unmarshal step
produced (none when it panicked), whether the unmarshal step was reached,
and the value the final To projection left in the caller-supplied target. -/
structure GetOutcome where
  state : TestState
  request : HttpRequest
  response : Option JsonApiResponse
  unmarshalReached : Bool
  projected : Option GoVal

/-- The tail both Get and GetSingle share once the unmarshal step has run:
project the unmarshaled response (when it did not panic) into the target
with To.  The unmarshal step was reached, so the flag is set. -/
def projectOutcome (req : HttpRequest) (u : TestState × Option JsonApiResponse)
    (target : GoTy) : GetOutcome :=
  match u.2 with
  | some r =>
    let t := r.To target u.1
    GetOutcome.mk t.1 req (some r) true (some t.2)
  | none => GetOutcome.mk u.1 req none true none

/-- Embeds JsonApiUrl.Get: compose the URL, dispatch to GetResource or
GetResourceWithBasicAuth on whether the trimmed username is empty, then
unmarshal the body and project it into the target.  The assert calls record
failures without stopping, so the aborted guard between the steps (which a
require-style failure would trip) never fires in this library. -/
def JsonApiUrl.Get (envBaseUrl : Option String) (jar : JsonApiUrl)
    (resp : HttpResponse) (target : GoTy) (st : TestState) : GetOutcome :=
  let r := jar.urlString envBaseUrl st
  let st := r.1
  let url := r.2
  let g :=
    if (goTrimSpace jar.Username).length == 0 then GetResource url resp st
    else GetResourceWithBasicAuth url jar.Username jar.Password resp st
  let st := g.1
  let req := g.2.1
  let body := g.2.2.2
  if st.aborted then GetOutcome.mk st req none false none
  else projectOutcome req (UnmarshalResponse body none st) target

/-- Embeds JsonApiUrl.GetSingle: as Get, with the single-element assertion
of UnmarshalSingleResponse before the projection. -/
def JsonApiUrl.GetSingle (envBaseUrl : Option String) (jar : JsonApiUrl)
    (resp : HttpResponse) (target : GoTy) (st : TestState) : GetOutcome :=
  let r := jar.urlString envBaseUrl st
  let st := r.1
  let url := r.2
  let g :=
    if (goTrimSpace jar.Username).length == 0 then GetResource url resp st
    else GetResourceWithBasicAuth url jar.Username jar.Password resp st
  let st := g.1
  let req := g.2.1
  let body := g.2.2.2
  if st.aborted then GetOutcome.mk st req none false none
  else projectOutcome req (UnmarshalSingleResponse body st) target

/-! Concrete fixtures used by counterexample and witness theorems. -/

/-- A fresh test state: no failures recorded, not aborted. -/
def st0 : TestState := TestState.mk 0 false

/-- The stub JSON API response body of the self-test suite (jsonapi metadata
plus a one-element data array). -/
def stubBody : Json :=
  Json.obj
    [("jsonapi", Json.obj [("version", Json.str "1.0")]),
     ("data", Json.arr [Json.obj
       [("type", Json.str "media--document"),
        ("id", Json.str "fd0b8969-ecc9-4a0d-81d3-537ba95bd5a8")]])]

/-- The one data element of stubBody. -/
def stubElem : List (String × Json) :=
  [("type", Json.str "media--document"),
   ("id", Json.str "fd0b8969-ecc9-4a0d-81d3-537ba95bd5a8")]

/-- A JsonApiUrl mirroring the self-test suite fixture. -/
def jarAuth : JsonApiUrl :=
  JsonApiUrl.mk "http://127.0.0.1:8080" "request" "withauth" "name" "moo" "" "admin" "moo"

/-- The JsonApiUrl of the URL-building property: base http://h:1, entity
media, bundle document, filter id, value abc, no raw filter. -/
def jarH1 : JsonApiUrl :=
  JsonApiUrl.mk "http://h:1" "media" "document" "id" "abc" "" "" ""

/-- A JsonApiUrl with a raw filter, plus a simple filter pair for it to
shadow. -/
def jarRaw : JsonApiUrl :=
  JsonApiUrl.mk "http://h:1" "media" "document" "name" "moo" "filter[a]=b" "" ""

/-- A JsonApiUrl with neither raw filter nor simple filter. -/
def jarNoFilter : JsonApiUrl :=
  JsonApiUrl.mk "http://h:1" "media" "document" "" "" "" "" ""

/-- A body whose data value is a single JSON object (not an array). -/
def bodySingleObj : Json :=
  Json.obj [("data", Json.obj [("type", Json.str "media--document")])]

/-- The envelope bodySingleObj decodes to. -/
def respSingleObj : JsonApiResponse :=
  JsonApiResponse.mk [[("type", Json.str "media--document")]]

/-- A typed target with one field, data, holding a sequence of objects with
one string field, type: the shape the JSON API bodies here project into. -/
def targetDataList : GoTy :=
  GoTy.structTy (GoFields.cons "data"
    (GoTy.list (GoTy.structTy (GoFields.cons "type" GoTy.str GoFields.nil)))
    GoFields.nil)

/-- A typed target whose single field data is an integer: projecting any
envelope into it fails to decode, leaving the zero value. -/
def targetDataInt : GoTy :=
  GoTy.structTy (GoFields.cons "data" GoTy.int GoFields.nil)

/-- A body whose data array holds a bare number instead of an object. -/
def bodyNumElem : Json :=
  Json.obj [("data", Json.arr [Json.num 1])]

/-- A body with an empty data array. -/
def bodyEmptyArr : Json :=
  Json.obj [("data", Json.arr [])]

/-! Helper lemmas about the embedded string operations. -/

/-- Splitting a list free of the separator yields the one chunk unchanged. -/
theorem goSplit_no_sep : ∀ (s : List Char), containsDashDash s = false →
    goSplitDashDash s = [s]
  | [], _ => rfl
  | [_], _ => rfl
  | c₁ :: c₂ :: rest, h => by
    rw [containsDashDash, Bool.or_eq_false_iff] at h
    rw [goSplitDashDash, if_neg (by simp [h.1]), goSplit_no_sep (c₂ :: rest) h.2]

/-- Splitting around the first separator: a separator-free prefix that does
not end in a dash is cut off whole, and scanning continues on the suffix. -/
theorem goSplit_sep : ∀ (X Y : List Char), containsDashDash X = false →
    X.getLast? ≠ some '-' →
    goSplitDashDash (X ++ '-' :: '-' :: Y) = X :: goSplitDashDash Y
  | [], Y, _, _ => by rw [List.nil_append, goSplitDashDash, if_pos (by simp)]
  | [c], Y, _, h2 => by
    have hc : ¬(c = '-') := by simpa using h2
    rw [List.cons_append, List.nil_append, goSplitDashDash,
      if_neg (by simp [hc]), goSplitDashDash, if_pos (by simp)]
  | c₁ :: c₂ :: X', Y, h1, h2 => by
    rw [containsDashDash, Bool.or_eq_false_iff] at h1
    have h2' : (c₂ :: X').getLast? ≠ some '-' := by
      rwa [List.getLast?_cons_cons] at h2
    rw [List.cons_append, List.cons_append, goSplitDashDash, if_neg (by simp [h1.1])]
    rw [← List.cons_append, goSplit_sep (c₂ :: X') Y h1.2 h2']

/-- Claim C8 (helper form): the split of a well-formed label has exactly the
entity and bundle chunks. -/
theorem goSplit_label (X Y : List Char) (h1 : containsDashDash X = false)
    (h2 : X.getLast? ≠ some '-') (h3 : containsDashDash Y = false) :
    goSplitDashDash (X ++ '-' :: '-' :: Y) = [X, Y] := by
  rw [goSplit_sep X Y h1 h2, goSplit_no_sep Y h3]

/-! Claims C8 and C9: the DrupalType accessors. -/

/-- Claim C8: for every type label of the form X--Y (the well-formedness the
source assumes: one separator occurrence, so X and Y are separator-free and
X does not end in a dash), Entity returns X and Bundle returns Y. -/
theorem C8_entity_bundle (X Y : String)
    (h1 : containsDashDash X.data = false)
    (h2 : X.data.getLast? ≠ some '-')
    (h3 : containsDashDash Y.data = false) :
    DrupalType.Entity (X ++ "--" ++ Y) = some X ∧
    DrupalType.Bundle (X ++ "--" ++ Y) = some Y := by
  have hdata : (X ++ "--" ++ Y).data = X.data ++ '-' :: '-' :: Y.data := by
    simp [String.data_append]
  rw [DrupalType.Entity, DrupalType.Bundle, hdata, goSplit_label X.data Y.data h1 h2 h3]
  exact ⟨rfl, rfl⟩

/-- Witness for C8 at the label taxonomy_term--person of the source comment. -/
theorem C8_witness :
    DrupalType.Entity "taxonomy_term--person" = some "taxonomy_term" ∧
    DrupalType.Bundle "taxonomy_term--person" = some "person" :=
  C8_entity_bundle "taxonomy_term" "person" (by decide) (by decide) (by decide)

/-- Claim C9: a type label without the separator makes Bundle an
out-of-range access (the split has a single chunk, index 1 is absent). -/
theorem C9_bundle_out_of_range (t : DrupalType)
    (h : containsDashDash t.data = false) :
    DrupalType.Bundle t = none := by
  rw [DrupalType.Bundle, goSplit_no_sep t.data h]
  rfl

/-- Witness for C9 at the bundle-less label user noted in the source TODO. -/
theorem C9_witness : DrupalType.Bundle "user" = none :=
  C9_bundle_out_of_range "user" (by decide)

/-! Claim C4: normalization of the data value by UnmarshalJSON. -/

/-- An array whose elements are all objects passes the element check with the
field maps collected in order. -/
theorem allObjects_map : ∀ (ms : List (List (String × Json))),
    allObjects (ms.map Json.obj) = some ms
  | [] => rfl
  | m :: ms => by simp [allObjects, allObjects_map ms]

/-- A data value that is a single object normalizes to the one-element
sequence holding its field map. -/
theorem unmarshalJSON_data_obj (fullRes : List (String × Json))
    (m : List (String × Json))
    (h : lookupExact "data" fullRes = some (Json.obj m)) :
    JsonApiResponse.UnmarshalJSON (Json.obj fullRes) =
      UnmarshalOutcome.ok (JsonApiResponse.mk [m]) := by
  simp [JsonApiResponse.UnmarshalJSON, h]

/-- A data value that is an array of objects normalizes to the field maps of
its elements, in order. -/
theorem unmarshalJSON_data_arr (fullRes : List (String × Json))
    (ms : List (List (String × Json)))
    (h : lookupExact "data" fullRes = some (Json.arr (ms.map Json.obj))) :
    JsonApiResponse.UnmarshalJSON (Json.obj fullRes) =
      UnmarshalOutcome.ok (JsonApiResponse.mk ms) := by
  simp [JsonApiResponse.UnmarshalJSON, h, allObjects_map]

/-- Claim C4 (amended): a data value that is a single object normalizes to
the one-element sequence holding its field map, and a data value that is an
array of N objects normalizes to the N field maps in the same order.  An
array holding a non-object element instead panics (see the counterexample). -/
theorem C4_data_normalization (fullRes : List (String × Json))
    (m : List (String × Json)) (ms : List (List (String × Json))) :
    (lookupExact "data" fullRes = some (Json.obj m) →
      JsonApiResponse.UnmarshalJSON (Json.obj fullRes) =
        UnmarshalOutcome.ok (JsonApiResponse.mk [m])) ∧
    (lookupExact "data" fullRes = some (Json.arr (ms.map Json.obj)) →
      JsonApiResponse.UnmarshalJSON (Json.obj fullRes) =
        UnmarshalOutcome.ok (JsonApiResponse.mk ms)) :=
  ⟨unmarshalJSON_data_obj fullRes m, unmarshalJSON_data_arr fullRes ms⟩

/-- Counterexample to C4 as stated: a data array of length one whose element
is the number 1 does not produce a one-element Data sequence; the unchecked
type assertion on the element panics instead. -/
theorem C4_counterexample :
    JsonApiResponse.UnmarshalJSON bodyNumElem = UnmarshalOutcome.panicked := rfl

/-- Witness for C4 on a single-object body and on the one-object stub array. -/
theorem C4_witness :
    JsonApiResponse.UnmarshalJSON bodySingleObj = UnmarshalOutcome.ok respSingleObj ∧
    JsonApiResponse.UnmarshalJSON stubBody =
      UnmarshalOutcome.ok (JsonApiResponse.mk [stubElem]) :=
  ⟨(C4_data_normalization [("data", Json.obj [("type", Json.str "media--document")])]
      [("type", Json.str "media--document")] []).1 rfl,
   (C4_data_normalization
      [("jsonapi", Json.obj [("version", Json.str "1.0")]), ("data", Json.arr [Json.obj stubElem])]
      [] [stubElem]).2 rfl⟩

/-! Claim C3: the single-element assertion of UnmarshalSingleResponse. -/

/-- Claim C3: on a body that decodes, UnmarshalSingleResponse records a
failure exactly when the Data sequence length differs from one, and either
way hands back the decoded response, whose single element the caller then
projects. -/
theorem C3_single_element_assertion (body : Json) (r : JsonApiResponse)
    (st : TestState)
    (h : JsonApiResponse.UnmarshalJSON body = UnmarshalOutcome.ok r) :
    (r.Data.length = 1 → UnmarshalSingleResponse body st = (st, some r)) ∧
    (r.Data.length ≠ 1 → UnmarshalSingleResponse body st = (st.fail, some r)) := by
  constructor
  · intro hl
    simp [UnmarshalSingleResponse, UnmarshalResponse, h, assertNil, assertEqualNat, hl]
  · intro hl
    have hb : (1 == r.Data.length) = false := by
      simp only [beq_eq_false_iff_ne, ne_eq]
      exact fun hx => hl hx.symm
    simp [UnmarshalSingleResponse, UnmarshalResponse, h, assertNil, assertEqualNat, hb]

/-- Witness for C3: the one-element stub body passes with the state intact;
an empty data array records exactly one failure. -/
theorem C3_witness :
    UnmarshalSingleResponse stubBody st0 = (st0, some (JsonApiResponse.mk [stubElem])) ∧
    UnmarshalSingleResponse bodyEmptyArr st0 = (st0.fail, some (JsonApiResponse.mk [])) :=
  ⟨(C3_single_element_assertion stubBody (JsonApiResponse.mk [stubElem]) st0 rfl).1 rfl,
   (C3_single_element_assertion bodyEmptyArr (JsonApiResponse.mk []) st0 rfl).2 (by decide)⟩

/-! Claims C2 and C10: the To projection. -/

/-- A field key found by exact lookup is what the struct field match finds. -/
theorem lookupField_of_exact (key : String) (kvs : List (String × Json))
    (v : Json) (h : lookupExact key kvs = some v) :
    lookupField key kvs = some v := by
  rw [lookupField, h]

/-- The field key data matches the envelope key Data case-insensitively. -/
theorem lookupField_Data (v : Json) : lookupField "data" [("Data", v)] = some v := rfl

/-- Claim C2 (amended): when the data value of the raw body is an array of
objects and the typed target is a structure whose single field reads the
data key, projecting the decoded envelope through To and decoding the raw
body directly into the target coincide field for field.  A single-object
data value, or a target reading a top-level key other than data, can differ
(see the counterexample). -/
theorem C2_roundtrip_array (fullRes : List (String × Json))
    (ms : List (List (String × Json))) (fieldTy : GoTy)
    (h : lookupExact "data" fullRes = some (Json.arr (ms.map Json.obj))) :
    JsonApiResponse.UnmarshalJSON (Json.obj fullRes) =
      UnmarshalOutcome.ok (JsonApiResponse.mk ms) ∧
    (unmarshalGo (GoTy.structTy (GoFields.cons "data" fieldTy GoFields.nil))
        ((JsonApiResponse.mk ms).marshalJSON)).1 =
      (unmarshalGo (GoTy.structTy (GoFields.cons "data" fieldTy GoFields.nil))
        (Json.obj fullRes)).1 := by
  refine ⟨unmarshalJSON_data_arr fullRes ms h, ?_⟩
  have hL := lookupField_Data (Json.arr (ms.map Json.obj))
  have hR := lookupField_of_exact "data" fullRes (Json.arr (ms.map Json.obj)) h
  simp [JsonApiResponse.marshalJSON, unmarshalGo, unmarshalFields, hL, hR]

/-- Counterexample to C2 as stated: a raw body whose data value is a single
object.  The envelope normalizes it to a one-element array, which projects
into a sequence-shaped target, while decoding the raw body directly leaves
that target field zero-valued, so the two results differ. -/
theorem C2_counterexample :
    JsonApiResponse.UnmarshalJSON bodySingleObj = UnmarshalOutcome.ok respSingleObj ∧
    (unmarshalGo targetDataList respSingleObj.marshalJSON).1 ≠
      (unmarshalGo targetDataList bodySingleObj).1 := by
  refine ⟨rfl, ?_⟩
  have h1 : (unmarshalGo targetDataList respSingleObj.marshalJSON).1 =
      GoVal.structVal [("data",
        GoVal.list [GoVal.structVal [("type", GoVal.str "media--document")]])] := by
    simp [unmarshalGo, unmarshalFields, targetDataList, respSingleObj,
      JsonApiResponse.marshalJSON, lookupField, lookupExact, lookupFold, eqFold, charFold]
  have h2 : (unmarshalGo targetDataList bodySingleObj).1 =
      GoVal.structVal [("data", GoVal.list [])] := by
    simp [unmarshalGo, unmarshalFields, targetDataList, bodySingleObj,
      lookupField, lookupExact]
  rw [h1, h2]
  simp

/-- Witness for C2 at the stub body, whose data is a one-object array. -/
theorem C2_witness :
    JsonApiResponse.UnmarshalJSON stubBody =
      UnmarshalOutcome.ok (JsonApiResponse.mk [stubElem]) ∧
    (unmarshalGo targetDataList ((JsonApiResponse.mk [stubElem]).marshalJSON)).1 =
      (unmarshalGo targetDataList stubBody).1 :=
  C2_roundtrip_array
    [("jsonapi", Json.obj [("version", Json.str "1.0")]), ("data", Json.arr [Json.obj stubElem])]
    [stubElem]
    (GoTy.list (GoTy.structTy (GoFields.cons "type" GoTy.str GoFields.nil)))
    rfl

/-- Claim C10: To never surfaces the error of the final unmarshal step; the
test state is returned untouched and the target is left with whatever value
the failed decode produced. -/
theorem C10_to_discards_error (jar : JsonApiResponse) (target : GoTy)
    (st : TestState)
    (_h : (unmarshalGo target jar.marshalJSON).2 = true) :
    jar.To target st = (st, (unmarshalGo target jar.marshalJSON).1) := rfl

/-- Witness for C10: projecting the envelope of a decoded one-element
response into an integer-shaped data field fails to decode, yet To returns
normally with the zero value and the same test state. -/
theorem C10_witness :
    (unmarshalGo targetDataInt (JsonApiResponse.mk [stubElem]).marshalJSON).2 = true ∧
    (JsonApiResponse.mk [stubElem]).To targetDataInt st0 =
      (st0, GoVal.structVal [("data", GoVal.int 0)]) := by
  have h : (unmarshalGo targetDataInt (JsonApiResponse.mk [stubElem]).marshalJSON).2 = true := by
    simp [unmarshalGo, unmarshalFields, targetDataInt, JsonApiResponse.marshalJSON,
      lookupField, lookupExact, lookupFold, eqFold, charFold]
  refine ⟨h, ?_⟩
  rw [C10_to_discards_error (JsonApiResponse.mk [stubElem]) targetDataInt st0 h]
  have hv : (unmarshalGo targetDataInt (JsonApiResponse.mk [stubElem]).marshalJSON).1 =
      GoVal.structVal [("data", GoVal.int 0)] := by
    simp [unmarshalGo, unmarshalFields, targetDataInt, JsonApiResponse.marshalJSON,
      lookupField, lookupExact, lookupFold, eqFold, charFold, GoTy.zero]
  rw [hv]

/-! Claim C5: the basic-auth decision of the client. -/

/-- TrimSpace leaves the empty string exactly when every character of the
input is white space. -/
theorem goTrimSpace_eq_empty_iff (s : String) :
    goTrimSpace s = "" ↔ ∀ c ∈ s.data, goIsSpace c = true := by
  constructor
  · intro h c hc
    have hdata : List.rdropWhile goIsSpace (List.dropWhile goIsSpace s.data) = [] := by
      have h2 := congrArg String.data h
      simpa [goTrimSpace] using h2
    rw [List.rdropWhile_eq_nil_iff] at hdata
    rw [← List.takeWhile_append_dropWhile (p := goIsSpace) (l := s.data)] at hc
    rcases List.mem_append.mp hc with h1 | h2
    · exact List.mem_takeWhile_imp h1
    · exact hdata c h2
  · intro h
    have h1 : List.dropWhile goIsSpace s.data = [] := List.dropWhile_eq_nil_iff.mpr h
    simp [goTrimSpace, h1, List.rdropWhile_nil]

/-- An all-white-space username trims to length zero. -/
theorem goTrimSpace_len_zero (s : String) (h : ∀ c ∈ s.data, goIsSpace c = true) :
    (goTrimSpace s).length = 0 := by
  rw [goTrimSpace_eq_empty_iff s |>.mpr h]
  rfl

/-- A username holding some non-space character trims to positive length. -/
theorem goTrimSpace_len_pos (s : String) (h : ∃ c ∈ s.data, goIsSpace c = false) :
    0 < (goTrimSpace s).length := by
  rcases Nat.eq_zero_or_pos (goTrimSpace s).length with h0 | hpos
  · exfalso
    have hempty : goTrimSpace s = "" :=
      String.ext (List.length_eq_zero.mp h0)
    rcases h with ⟨c, hc, hcf⟩
    have htrue := (goTrimSpace_eq_empty_iff s).mp hempty c hc
    rw [htrue] at hcf
    exact Bool.noConfusion hcf
  · exact hpos

/-- The projection tail hands the request through unchanged. -/
theorem projectOutcome_request (req : HttpRequest)
    (u : TestState × Option JsonApiResponse) (target : GoTy) :
    (projectOutcome req u target).request = req := by
  rcases u with ⟨st, v⟩
  cases v <;> rfl

/-- The aborted guard hands the request through unchanged on both sides. -/
theorem request_of_guard (c : Prop) [Decidable c] (st : TestState)
    (req : HttpRequest) (u : TestState × Option JsonApiResponse) (target : GoTy) :
    (if c then GetOutcome.mk st req none false none
     else projectOutcome req u target).request = req := by
  split
  · rfl
  · exact projectOutcome_request req u target

/-- The request Get sends carries the credentials picked by the trimmed
username dispatch. -/
theorem Get_request (envBaseUrl : Option String) (jar : JsonApiUrl)
    (resp : HttpResponse) (target : GoTy) (st : TestState) :
    (jar.Get envBaseUrl resp target st).request =
      if (goTrimSpace jar.Username).length == 0
      then mkRequest (jar.urlString envBaseUrl st).2 "" ""
      else mkRequest (jar.urlString envBaseUrl st).2 jar.Username jar.Password := by
  simp only [JsonApiUrl.Get, GetResource, GetResourceWithBasicAuth]
  rw [request_of_guard]
  split <;> rfl

/-- The request GetSingle sends carries the credentials picked by the same
dispatch. -/
theorem GetSingle_request (envBaseUrl : Option String) (jar : JsonApiUrl)
    (resp : HttpResponse) (target : GoTy) (st : TestState) :
    (jar.GetSingle envBaseUrl resp target st).request =
      if (goTrimSpace jar.Username).length == 0
      then mkRequest (jar.urlString envBaseUrl st).2 "" ""
      else mkRequest (jar.urlString envBaseUrl st).2 jar.Username jar.Password := by
  simp only [JsonApiUrl.GetSingle, GetResource, GetResourceWithBasicAuth]
  rw [request_of_guard]
  split <;> rfl

/-- Claim C5: a username that is nonempty after trimming puts basic-auth
credentials holding exactly the supplied username and password on the
outgoing request; an empty or all-white-space username leaves the request
without an Authorization header whatever the password, both at the
GetResourceWithBasicAuth level and through the Get and GetSingle dispatch. -/
theorem C5_basic_auth_header (url user pass : String) (envBaseUrl : Option String)
    (jar : JsonApiUrl) (resp : HttpResponse) (target : GoTy) (st : TestState) :
    ((∀ c ∈ user.data, goIsSpace c = true) →
      (mkRequest url user pass).basicAuth = none) ∧
    ((∃ c ∈ user.data, goIsSpace c = false) →
      (mkRequest url user pass).basicAuth = some (user, pass)) ∧
    ((∀ c ∈ jar.Username.data, goIsSpace c = true) →
      (jar.Get envBaseUrl resp target st).request.basicAuth = none ∧
      (jar.GetSingle envBaseUrl resp target st).request.basicAuth = none) ∧
    ((∃ c ∈ jar.Username.data, goIsSpace c = false) →
      (jar.Get envBaseUrl resp target st).request.basicAuth =
        some (jar.Username, jar.Password) ∧
      (jar.GetSingle envBaseUrl resp target st).request.basicAuth =
        some (jar.Username, jar.Password)) := by
  refine ⟨?_, ?_, ?_, ?_⟩
  · intro h
    have h0 := goTrimSpace_len_zero user h
    simp [mkRequest, h0]
  · intro h
    have hp := goTrimSpace_len_pos user h
    simp [mkRequest, hp]
  · intro h
    have h0 := goTrimSpace_len_zero jar.Username h
    have hb : ((goTrimSpace jar.Username).length == 0) = true := by simp [h0]
    rw [Get_request, GetSingle_request, if_pos (by simp [hb])]
    exact ⟨rfl, rfl⟩
  · intro h
    have hp := goTrimSpace_len_pos jar.Username h
    have hb : ((goTrimSpace jar.Username).length == 0) = false := by
      simp [Nat.pos_iff_ne_zero.mp hp]
    rw [Get_request, GetSingle_request, if_neg (by simp [hb])]
    constructor <;> simp [mkRequest, hp]

/-- Witness for C5: the credentials of the self-test suite produce the header
with exactly that pair; an all-blank username produces none, password or not;
the dispatch of Get from the suite fixture carries the pair too. -/
theorem C5_witness :
    (mkRequest "http://u" "admin" "moo").basicAuth = some ("admin", "moo") ∧
    (mkRequest "http://u" "  " "foo").basicAuth = none ∧
    (jarAuth.Get none (HttpResponse.mk 200 stubBody) targetDataList st0).request.basicAuth =
      some ("admin", "moo") :=
  ⟨(C5_basic_auth_header "http://u" "admin" "moo" none jarAuth
      (HttpResponse.mk 200 stubBody) targetDataList st0).2.1 (by decide),
   (C5_basic_auth_header "http://u" "  " "foo" none jarAuth
      (HttpResponse.mk 200 stubBody) targetDataList st0).1 (by decide),
   ((C5_basic_auth_header "http://u" "admin" "moo" none jarAuth
      (HttpResponse.mk 200 stubBody) targetDataList st0).2.2.2 (by decide)).1⟩

/-! Claims C6 and C7: URL building. -/

/-- Claim C6 (amended): with the DRUPAL_BASE_URL environment variable unset,
the fixture URL builds to exactly the expected string, recording no failure. -/
theorem C6_url_building (st : TestState) :
    JsonApiUrl.urlString none jarH1 st =
      (st, "http://h:1/jsonapi/media/document?filter[id]=abc") := rfl

/-- Counterexample to C6 as stated: the same JsonApiUrl in an environment
where DRUPAL_BASE_URL is set overrides the BaseUrl field, so String does not
return the stated URL. -/
theorem C6_counterexample :
    (JsonApiUrl.urlString (some "http://other") jarH1 st0).2 =
      "http://other/jsonapi/media/document?filter[id]=abc" ∧
    (JsonApiUrl.urlString (some "http://other") jarH1 st0).2 ≠
      "http://h:1/jsonapi/media/document?filter[id]=abc" := by decide

/-- Claim C7: a nonempty raw filter is appended verbatim after the question
mark, with the Filter and Value fields ignored; with an empty raw filter and
a nonempty Filter the simple filter pair is appended; with both empty the
effective path is returned with no query string. -/
theorem C7_filter_selection (envBaseUrl : Option String) (moo : JsonApiUrl)
    (st : TestState) :
    (moo.RawFilter ≠ "" →
      (moo.urlString envBaseUrl st).2 =
        effectivePath envBaseUrl moo ++ "?" ++ moo.RawFilter ∧
      ∀ f v : String,
        (JsonApiUrl.mk moo.BaseUrl moo.DrupalEntity moo.DrupalBundle f v
          moo.RawFilter moo.Username moo.Password).urlString envBaseUrl st =
          moo.urlString envBaseUrl st) ∧
    (moo.RawFilter = "" → moo.Filter ≠ "" →
      (moo.urlString envBaseUrl st).2 =
        effectivePath envBaseUrl moo ++ "?filter[" ++ moo.Filter ++ "]=" ++ moo.Value) ∧
    (moo.RawFilter = "" → moo.Filter = "" →
      (moo.urlString envBaseUrl st).2 = effectivePath envBaseUrl moo) := by
  refine ⟨fun h => ⟨?_, fun f v => ?_⟩, fun h hf => ?_, fun h hf => ?_⟩
  · simp [JsonApiUrl.urlString, h]
  · simp [JsonApiUrl.urlString, effectivePath, h]
  · simp [JsonApiUrl.urlString, h, hf]
  · simp [JsonApiUrl.urlString, h, hf]

/-- Witness for C7 on the three filter configurations of the fixture URL. -/
theorem C7_witness :
    (jarRaw.urlString none st0).2 = "http://h:1/jsonapi/media/document?filter[a]=b" ∧
    (JsonApiUrl.mk "http://h:1" "media" "document" "zz" "ww" "filter[a]=b" "" "").urlString
        none st0 = jarRaw.urlString none st0 ∧
    (jarH1.urlString none st0).2 = "http://h:1/jsonapi/media/document?filter[id]=abc" ∧
    (jarNoFilter.urlString none st0).2 = "http://h:1/jsonapi/media/document" := by
  refine ⟨?_, ?_, ?_, ?_⟩
  · rw [((C7_filter_selection none jarRaw st0).1 (by decide)).1]
    rfl
  · exact ((C7_filter_selection none jarRaw st0).1 (by decide)).2 "zz" "ww"
  · rw [(C7_filter_selection none jarH1 st0).2.1 rfl (by decide)]
    rfl
  · rw [(C7_filter_selection none jarNoFilter st0).2.2 rfl rfl]
    rfl

/-! Claim C1: what a non-200 response does to the pipeline. -/

/-- Recording a failure does not abort. -/
theorem assertNotEmpty_aborted (s : String) (st : TestState) :
    (assertNotEmpty s st).aborted = st.aborted := by
  rw [assertNotEmpty]
  split <;> rfl

/-- Recording a failure never lowers the failure count. -/
theorem assertNotEmpty_failures_le (s : String) (st : TestState) :
    st.failures ≤ (assertNotEmpty s st).failures := by
  rw [assertNotEmpty]
  split
  · exact Nat.le_succ _
  · exact Nat.le_refl _

/-- The equality assertion does not abort either way. -/
theorem assertEqualNat_aborted (a b : Nat) (st : TestState) :
    (assertEqualNat a b st).aborted = st.aborted := by
  rw [assertEqualNat]
  split <;> rfl

/-- A failed equality assertion records exactly one failure. -/
theorem assertEqualNat_of_ne (a b : Nat) (st : TestState) (h : ¬(a = b)) :
    assertEqualNat a b st = st.fail := by
  rw [assertEqualNat, if_neg (by simp only [beq_iff_eq]; exact h)]

/-- The state URL building leaves behind is the three nonempty assertions. -/
theorem urlString_state (envBaseUrl : Option String) (moo : JsonApiUrl)
    (st : TestState) :
    (moo.urlString envBaseUrl st).1 =
      assertNotEmpty moo.DrupalBundle
        (assertNotEmpty moo.DrupalEntity (assertNotEmpty moo.BaseUrl st)) := rfl

/-- URL building never aborts. -/
theorem urlString_aborted (envBaseUrl : Option String) (moo : JsonApiUrl)
    (st : TestState) :
    (moo.urlString envBaseUrl st).1.aborted = st.aborted := by
  rw [urlString_state, assertNotEmpty_aborted, assertNotEmpty_aborted,
    assertNotEmpty_aborted]

/-- URL building never lowers the failure count. -/
theorem urlString_failures_le (envBaseUrl : Option String) (moo : JsonApiUrl)
    (st : TestState) :
    st.failures ≤ (moo.urlString envBaseUrl st).1.failures := by
  rw [urlString_state]
  exact Nat.le_trans (Nat.le_trans (assertNotEmpty_failures_le _ _)
    (assertNotEmpty_failures_le _ _)) (assertNotEmpty_failures_le _ _)

/-- The unmarshal step never aborts and never lowers the failure count:
a decode error is recorded by an assert and execution continues. -/
theorem UnmarshalResponse_none_state (body : Json) (st : TestState) :
    st.failures ≤ (UnmarshalResponse body none st).1.failures ∧
    (UnmarshalResponse body none st).1.aborted = st.aborted := by
  rcases hU : JsonApiResponse.UnmarshalJSON body with r | msg | _ <;>
    simp [UnmarshalResponse, hU, assertNil, TestState.fail, Nat.le_succ]

/-- The projection tail reports the unmarshal step as reached. -/
theorem projectOutcome_reached (req : HttpRequest)
    (u : TestState × Option JsonApiResponse) (target : GoTy) :
    (projectOutcome req u target).unmarshalReached = true := by
  rcases u with ⟨st, v⟩
  cases v <;> rfl

/-- The projection tail leaves the unmarshal-step state untouched: To never
touches the test state. -/
theorem projectOutcome_state (req : HttpRequest)
    (u : TestState × Option JsonApiResponse) (target : GoTy) :
    (projectOutcome req u target).state = u.1 := by
  rcases u with ⟨st, v⟩
  cases v <;> rfl

/-- What one Get call amounts to when the incoming state is not aborted: the
unmarshal step is reached, and the final state is the unmarshal state over
the status assertion over the URL-building state. -/
theorem Get_state_char (envBaseUrl : Option String) (jar : JsonApiUrl)
    (resp : HttpResponse) (target : GoTy) (st : TestState)
    (h1 : st.aborted = false) :
    (jar.Get envBaseUrl resp target st).unmarshalReached = true ∧
    (jar.Get envBaseUrl resp target st).state =
      (UnmarshalResponse resp.Body none
        (assertEqualNat 200 resp.StatusCode (jar.urlString envBaseUrl st).1)).1 := by
  have hab : (assertEqualNat 200 resp.StatusCode (jar.urlString envBaseUrl st).1).aborted
      = false := by
    rw [assertEqualNat_aborted, urlString_aborted]
    exact h1
  by_cases hcond : ((goTrimSpace jar.Username).length == 0) = true <;>
    simp only [JsonApiUrl.Get, GetResource, GetResourceWithBasicAuth, assertNil,
      hcond, if_true, if_false, Bool.not_eq_true] at * <;>
    rw [if_neg (by simp [hab])] <;>
    exact ⟨projectOutcome_reached _ _ _, projectOutcome_state _ _ _⟩

/-- Counterexample to C1 as stated: a GET answered with status 500 and the
stub body.  The status assertion records the failure, but the call carries
on: the unmarshal step is reached, the body is decoded into the stub
response, and the run ends with that one recorded failure rather than an
immediate stop. -/
theorem C1_counterexample :
    (jarAuth.Get none (HttpResponse.mk 500 stubBody) targetDataList st0).unmarshalReached
      = true ∧
    (jarAuth.Get none (HttpResponse.mk 500 stubBody) targetDataList st0).response =
      some (JsonApiResponse.mk [stubElem]) ∧
    (jarAuth.Get none (HttpResponse.mk 500 stubBody) targetDataList st0).state.failures
      = 1 :=
  ⟨rfl, rfl, rfl⟩

/-- Claim C1 (amended): a non-200 response records a test failure, but the
call does not stop: the body is still handed to the unmarshal step, which
runs on it. -/
theorem C1_non200_decodes_anyway (envBaseUrl : Option String) (jar : JsonApiUrl)
    (resp : HttpResponse) (target : GoTy) (st : TestState)
    (h1 : st.aborted = false) (h2 : resp.StatusCode ≠ 200) :
    (jar.Get envBaseUrl resp target st).unmarshalReached = true ∧
    st.failures < (jar.Get envBaseUrl resp target st).state.failures := by
  obtain ⟨hr, hs⟩ := Get_state_char envBaseUrl jar resp target st h1
  refine ⟨hr, ?_⟩
  rw [hs]
  have hfail := assertEqualNat_of_ne 200 resp.StatusCode
    (jar.urlString envBaseUrl st).1 (fun he => h2 he.symm)
  calc st.failures
      ≤ (jar.urlString envBaseUrl st).1.failures := urlString_failures_le _ _ _
    _ < (assertEqualNat 200 resp.StatusCode (jar.urlString envBaseUrl st).1).failures := by
        rw [hfail]
        exact Nat.lt_succ_self _
    _ ≤ _ := (UnmarshalResponse_none_state resp.Body _).1

/-- Witness for C1 at the 500-status stub response. -/
theorem C1_witness :
    (jarAuth.Get none (HttpResponse.mk 500 stubBody) targetDataInt st0).unmarshalReached
      = true ∧
    st0.failures <
      (jarAuth.Get none (HttpResponse.mk 500 stubBody) targetDataInt st0).state.failures :=
  C1_non200_decodes_anyway none jarAuth (HttpResponse.mk 500 stubBody) targetDataInt st0
    rfl (by decide)

end IdcGolang
